import Mathlib

/-!
Verification of the real-time collaborative drawing canvas server and client
(room registry, stroke log with global undo/redo, persistence round-trip,
live segment relay, and the client reconciler's ordering gate and redraw),
as a shallow embedding of the JavaScript sources:
  - `server/drawing-state.js` (DrawingState)
  - `server/rooms.js` (RoomManager, persistence, hydration)
  - `server/index.js` (socket handlers: connection, drawing, drawingSegment,
    undo, redo)
  - `client/canvas.js` (drawSegment ordering gate, redraw)
  - `client/main.js` (onStateReceived)
JavaScript mutation is rendered as explicit state passing; arrays are Lean
lists (push = append at the tail, pop = remove the tail); `Map` objects are
association lists in insertion order; nullable values are `Option`.
-/

namespace Collab

/-- A 2-D point of a stroke path. Coordinates are integers in the model;
none of the verified logic inspects them. -/
structure Point where
  x : Int
  y : Int
deriving DecidableEq, Repr

/-- A completed stroke, as the canonical object built by the server's
`drawing` handler (`index.js`): id, author (`userId`), color, line width,
path, eraser flag, timestamp and the author's layer index. -/
structure Stroke where
  id : String
  userId : String
  color : String
  lineWidth : Nat
  points : List Point
  isEraser : Bool
  timestamp : Nat
  layer : Nat
deriving DecidableEq, Repr

/-- `DrawingState` from `drawing-state.js`: the ordered stroke log
(`this.strokes`) plus the stack of undone strokes (`this.undoStack`,
the redo stack). JS array push/pop act on the tail, so both lists keep
the JS array order: the most recent element is last. -/
structure DrawingState where
  strokes : List Stroke
  undoStack : List Stroke
deriving DecidableEq, Repr

/-- The `DrawingState` constructor: `this.strokes = initialStrokes.slice();
this.undoStack = []`. -/
def DrawingState.make (init : List Stroke) : DrawingState :=
  { strokes := init, undoStack := [] }

/-- `addStroke(stroke)`: `this.strokes.push(stroke); this.undoStack = [];
return stroke.id`. -/
def DrawingState.addStroke (st : DrawingState) (s : Stroke) :
    String × DrawingState :=
  (s.id, { strokes := st.strokes ++ [s], undoStack := [] })

/-- `undoLastStroke()`: if the log is empty return `null`; otherwise pop the
last stroke, push it on the undo (redo) stack, and return it. -/
def DrawingState.undoLastStroke (st : DrawingState) :
    Option Stroke × DrawingState :=
  match st.strokes.getLast? with
  | none => (none, st)
  | some s =>
      (some s, { strokes := st.strokes.dropLast
                 undoStack := st.undoStack ++ [s] })

/-- `redoLastStroke()`: if the undo stack is empty return `null`; otherwise
pop its last element, push it back on the log, and return it. -/
def DrawingState.redoLastStroke (st : DrawingState) :
    Option Stroke × DrawingState :=
  match st.undoStack.getLast? with
  | none => (none, st)
  | some s =>
      (some s, { strokes := st.strokes ++ [s]
                 undoStack := st.undoStack.dropLast })

/-- `getState()`: returns the stroke log. -/
def DrawingState.getState (st : DrawingState) : List Stroke :=
  st.strokes

/-- `clear()`: empties both the log and the redo stack. -/
def DrawingState.clearAll (_st : DrawingState) : DrawingState :=
  { strokes := [], undoStack := [] }

/-- `getStrokeCount()`. -/
def DrawingState.getStrokeCount (st : DrawingState) : Nat :=
  st.strokes.length

/-- The JSON object written to a room's file: `toJSON()` returns
`{ strokes: this.strokes }` — the undo stack is not serialized. -/
structure RoomJSON where
  strokes : List Stroke
deriving DecidableEq, Repr

/-- `toJSON()`. -/
def DrawingState.toJSON (st : DrawingState) : RoomJSON :=
  { strokes := st.strokes }

/-- `DrawingState.fromJSON(obj)`: `null`/shapeless input yields a fresh
empty state, otherwise a state built from `obj.strokes`. -/
def DrawingState.fromJSON (obj : Option RoomJSON) : DrawingState :=
  match obj with
  | none => DrawingState.make []
  | some o => DrawingState.make o.strokes

/-- A participant as built by the connection handler in `index.js`:
`{ id: socket.id, name, color, layer: layerIndex }`. -/
structure User where
  id : String
  name : String
  color : String
  layer : Nat
deriving DecidableEq, Repr

/-- A room as stored by `RoomManager` (`rooms.js`): a `Map` of users keyed
by socket id (association list in insertion order, as JS `Map` iterates) and
one `DrawingState`. -/
structure Room where
  users : List (String × User)
  drawingState : DrawingState
deriving DecidableEq, Repr

/-- `Map.prototype.set`: overwrite in place if the key is present, else
append at the end (JS `Map` preserves insertion order). -/
def mapSet (m : List (String × User)) (k : String) (v : User) :
    List (String × User) :=
  if m.any (fun p => p.1 == k) then
    m.map (fun p => if p.1 == k then (k, v) else p)
  else m ++ [(k, v)]

/-- `Map.prototype.get` as used on the users map. -/
def mapGet (m : List (String × User)) (k : String) : Option User :=
  (m.find? (fun p => p.1 == k)).map Prod.snd

/-- `Map.prototype.delete`. -/
def mapDelete (m : List (String × User)) (k : String) :
    List (String × User) :=
  m.filter (fun p => p.1 != k)

/-- The fresh room built by `getOrCreateRoom` when the id is absent:
`{ users: new Map(), drawingState: new DrawingState() }`. Hydration from
disk is fired in the background; its resolution is `Room.hydrateResolve`. -/
def Room.create : Room :=
  { users := [], drawingState := DrawingState.make [] }

/-- The `readFile(...).then` callback inside `getOrCreateRoom` (`rooms.js`),
at the moment the file content parses: `room.drawingState =
DrawingState.fromJSON(obj)` — an unconditional assignment, whatever the
room's current state holds. -/
def Room.hydrateResolve (room : Room) (obj : RoomJSON) : Room :=
  { room with drawingState := DrawingState.fromJSON (some obj) }

/-- The stroke-log effect of the `drawing` handler: `drawingState.addStroke
(stroke)` on the room's current state. -/
def Room.appendStroke (room : Room) (s : Stroke) : Room :=
  { room with drawingState := (room.drawingState.addStroke s).2 }

/-- The join steps of `io.on('connection')` (`index.js`): the layer index is
`roomObj.users.size` (the participant count before insertion), the user
object carries it, and `roomManager.addUser` inserts the user. Returns the
assigned user and the updated room. -/
def Room.connect (room : Room) (socketId name color : String) :
    User × Room :=
  let layerIndex := room.users.length
  let u : User := { id := socketId, name := name, color := color
                    layer := layerIndex }
  (u, { room with users := mapSet room.users socketId u })

/-- `RoomManager.removeUser` (`rooms.js`): look the user up; when present,
delete it from the map (the room itself is kept). Returns the removed
user. -/
def Room.removeUser (room : Room) (socketId : String) :
    Option User × Room :=
  match mapGet room.users socketId with
  | none => (none, room)
  | some u => (some u, { room with users := mapDelete room.users socketId })

/-- The on-disk room store (`data/rooms/<roomId>.json` files): room id →
parsed file content. Writing prepends; reading takes the most recent
entry. -/
def Store := List (String × RoomJSON)

/-- `fs.writeFile` of `saveRoomState`: the file now holds
`room.drawingState.toJSON()`. -/
def saveRoomState (store : Store) (roomId : String) (st : DrawingState) :
    Store :=
  (roomId, st.toJSON) :: store

/-- The hydration read path of `getOrCreateRoom`: read the room's file and
build a `DrawingState` from it with `fromJSON`; a missing file leaves a
fresh empty state (the `.catch` branch). -/
def loadRoomState (store : Store) (roomId : String) : DrawingState :=
  DrawingState.fromJSON
    (((store : List (String × RoomJSON)).find?
        (fun p => p.1 == roomId)).map Prod.snd)

/-- Who a server emission is addressed to: `socket.emit` (sender only),
`io.in(roomId).emit` (everyone in the room), or `socket.to(roomId).emit`
(everyone except the sender). -/
inductive Scope where
  | senderOnly
  | roomAll
  | roomExceptSender
deriving DecidableEq, Repr

/-- One emission of a socket handler: its scope and the event name. -/
structure Emission where
  scope : Scope
  event : String
deriving DecidableEq, Repr

/-- `socket.on('undo')` (`index.js`): run `undoLastStroke`; on success
broadcast `undo` and the full `state` to the whole room (persistence is
fire-and-forget and not an emission to clients); on failure emit
`undoFailed` to the sender only. -/
def handleUndo (st : DrawingState) : DrawingState × List Emission :=
  match st.undoLastStroke with
  | (some _, st2) =>
      (st2, [{ scope := Scope.roomAll, event := "undo" },
             { scope := Scope.roomAll, event := "state" }])
  | (none, st2) =>
      (st2, [{ scope := Scope.senderOnly, event := "undoFailed" }])

/-- `socket.on('redo')` (`index.js`): run `redoLastStroke`; on success
broadcast `redo` and the full `state` to the whole room; on failure emit
`redoFailed` to the sender only. -/
def handleRedo (st : DrawingState) : DrawingState × List Emission :=
  match st.redoLastStroke with
  | (some _, st2) =>
      (st2, [{ scope := Scope.roomAll, event := "redo" },
             { scope := Scope.roomAll, event := "state" }])
  | (none, st2) =>
      (st2, [{ scope := Scope.senderOnly, event := "redoFailed" }])

/-- The mutable `data` object of a `drawingSegment` event, with exactly the
fields the server handler touches; `points`, `color` and `size` ride along
untouched. `Option` renders JS `undefined`. -/
structure SegData where
  layer : Option Nat
  timestamp : Option Nat
  serverTimestamp : Option Nat
  userId : Option String
  tool : Option String
  points : List Point
  color : Option String
  size : Option Nat
deriving DecidableEq, Repr

/-- JS falsiness of an optional number (`undefined` or `0`). -/
def natFalsy : Option Nat → Bool
  | none => true
  | some n => n == 0

/-- JS falsiness of an optional string (`undefined` or the empty string). -/
def strFalsy : Option String → Bool
  | none => true
  | some s => s == ""

/-- `socket.on('drawingSegment')` (`index.js`): stamp the sender's layer when
known, default a falsy client timestamp to `Date.now()`, always set
`serverTimestamp`, overwrite `userId` with the sender's socket id, default a
falsy tool to `"brush"`, and relay with `socket.to(roomId)` — everyone in
the room except the sender. `now` stands for `Date.now()` at receipt. -/
def handleDrawingSegment (senderId : String) (userLayer : Option Nat)
    (now : Nat) (data : SegData) : SegData × Scope :=
  let d1 := match userLayer with
    | some l => { data with layer := some l }
    | none => data
  let d2 := if natFalsy d1.timestamp then { d1 with timestamp := some now }
            else d1
  let d3 := { d2 with serverTimestamp := some now }
  let d4 := { d3 with userId := some senderId }
  let d5 := if strFalsy d4.tool then { d4 with tool := some "brush" }
            else d4
  (d5, Scope.roomExceptSender)

/-- The timestamp ordering gate of `CanvasManager.drawSegment`
(`canvas.js`): a per-author surface starts with `lastTimestamp: 0`; a
segment is skipped when the gate is truthy (nonzero) and the segment's
timestamp is strictly smaller, and otherwise accepted, the gate becoming the
segment's timestamp. Returns whether the segment was accepted and the new
gate value. -/
def gateStep (last ts : Nat) : Bool × Nat :=
  if last ≠ 0 ∧ ts < last then (false, last) else (true, ts)

/-- Run the ordering gate over a list of incoming segment timestamps,
recording each verdict. -/
def gateRun (last : Nat) : List Nat → List (Nat × Bool) × Nat
  | [] => ([], last)
  | ts :: rest =>
      let step := gateStep last ts
      let tail := gateRun step.2 rest
      ((ts, step.1) :: tail.1, tail.2)

/-- One `drawStroke(points, color, lineWidth, isEraser)` invocation on the
client's consolidated canvas. -/
structure DrawCall where
  points : List Point
  color : String
  lineWidth : Nat
  isEraser : Bool
deriving DecidableEq, Repr

/-- The draw call `redraw` issues for one stroke of the snapshot. -/
def strokeCall (s : Stroke) : DrawCall :=
  { points := s.points, color := s.color, lineWidth := s.lineWidth
    isEraser := s.isEraser }

/-- An operation `CanvasManager.redraw` performs on the consolidated
canvas. -/
inductive CanvasOp where
  | wipe
  | fillBackground
  | draw (c : DrawCall)
deriving DecidableEq, Repr

/-- `CanvasManager.redraw(strokes)` (`canvas.js`): clear the canvas, paint
the background, then `strokes.forEach(stroke => drawStroke(...))` — the
strokes are drawn in the order of the argument list. -/
def redraw (strokes : List Stroke) : List CanvasOp :=
  strokes.foldl (fun acc s => acc ++ [CanvasOp.draw (strokeCall s)])
    [CanvasOp.wipe, CanvasOp.fillBackground]

/-- `wsManager.onStateReceived` (`main.js`): `redraw(data.strokes || [])`. -/
def onStateReceived (strokes : Option (List Stroke)) : List CanvasOp :=
  redraw (strokes.getD [])

/-- The draw calls of a canvas operation sequence, in order. -/
def drawCalls (ops : List CanvasOp) : List DrawCall :=
  ops.filterMap (fun op => match op with
    | CanvasOp.draw c => some c
    | _ => none)

/-- The ordering §4.4 of the spec describes for snapshot redraw: ascending
stroke timestamp, author layer index as the tie-break. -/
def specLe (a b : Stroke) : Bool :=
  a.timestamp < b.timestamp
    || (a.timestamp == b.timestamp && a.layer ≤ b.layer)

/-- Stable insertion into a `specLe`-sorted list. -/
def insertBySpec (s : Stroke) : List Stroke → List Stroke
  | [] => [s]
  | t :: rest =>
      if specLe s t then s :: t :: rest else t :: insertBySpec s rest

/-- Modelled from the spec (for comparison with the code's `redraw` order):
the draw calls §4.4 demands for a snapshot, the strokes sorted by ascending
timestamp with the layer index as tie-break (stable insertion sort). The
source's `redraw` applies no such sort. -/
def specOrderedCalls (strokes : List Stroke) : List DrawCall :=
  (strokes.foldr insertBySpec []).map strokeCall

/-! Concrete fixtures used by counterexamples and witnesses. `strokeA` and
`strokeB` are the spec's scenario strokes: author A's stroke with layer 0
and timestamp 10, author B's with layer 1 and timestamp 5; they differ in
every visible attribute so that draw calls distinguish them. -/

/-- Scenario stroke `sA` (layer 0, ts = 10). -/
def strokeA : Stroke :=
  { id := "A", userId := "uA", color := "#aa0000", lineWidth := 2
    points := [⟨0, 0⟩, ⟨1, 1⟩], isEraser := false, timestamp := 10
    layer := 0 }

/-- Scenario stroke `sB` (layer 1, ts = 5). -/
def strokeB : Stroke :=
  { id := "B", userId := "uB", color := "#00bb00", lineWidth := 3
    points := [⟨2, 2⟩, ⟨3, 3⟩], isEraser := false, timestamp := 5
    layer := 1 }

/-- The stroke appended while hydration is in flight in the spec's
hydration scenario. -/
def strokeS1 : Stroke :=
  { id := "s1", userId := "uA", color := "#aa0000", lineWidth := 2
    points := [⟨0, 0⟩, ⟨1, 1⟩], isEraser := false, timestamp := 1
    layer := 0 }

/-- A stroke of the persisted (different) log in the hydration scenario. -/
def strokeP : Stroke :=
  { id := "p", userId := "uold", color := "#0000cc", lineWidth := 4
    points := [⟨5, 5⟩, ⟨6, 6⟩], isEraser := false, timestamp := 2
    layer := 0 }

/-- The room of the layer-index scenario after three sequential joins
(`a`, `b`, `c`) and the disconnect of the first participant. -/
def roomScenario : Room :=
  ((((Room.create.connect "a" "Alice" "#111111").2.connect
      "b" "Bob" "#222222").2.connect
      "c" "Cara" "#333333").2.removeUser "a").2

/-- An incoming live segment whose author id is client-spoofed and whose
tool is unspecified. -/
def segSpoofed : SegData :=
  { layer := none, timestamp := some 77, serverTimestamp := none
    userId := some "someoneElse", tool := none
    points := [⟨0, 0⟩, ⟨1, 1⟩], color := some "#aa0000", size := some 2 }

/-- A drawing state with a pending redo (one stroke undone). -/
def stateWithRedo : DrawingState :=
  { strokes := [strokeA], undoStack := [strokeB] }

/-! Claims. -/

/-- C1, counterexample: a fresh room receives `append(strokeS1)` before
hydration resolves; hydration then resolves with the persisted log
`[strokeP]`. Contrary to the claim, the log is not `[strokeS1]` afterwards:
the hydration result replaces it wholesale, so the log is `[strokeP]`. -/
theorem hydration_overwrite_cex :
    ((Room.create.appendStroke strokeS1).hydrateResolve
        { strokes := [strokeP] }).drawingState.strokes = [strokeP]
      ∧ ¬ ((Room.create.appendStroke strokeS1).hydrateResolve
        { strokes := [strokeP] }).drawingState.strokes = [strokeS1] := by
  decide

/-- C1, amended: hydration is never discarded — when the persisted file
parses, its log replaces the room's drawing state unconditionally, so a
stroke appended before hydration resolves is lost (it is absent from the
log afterwards whenever the persisted log does not contain it). -/
theorem hydration_replaces_log (room : Room) (s : Stroke) (obj : RoomJSON)
    (h : s ∉ obj.strokes) :
    ((room.appendStroke s).hydrateResolve obj).drawingState.strokes
        = obj.strokes
      ∧ s ∉ ((room.appendStroke s).hydrateResolve
          obj).drawingState.strokes :=
  ⟨rfl, h⟩

/-- C1, witness for `hydration_replaces_log` at the scenario input. -/
theorem hydration_replaces_log_witness :
    ((Room.create.appendStroke strokeS1).hydrateResolve
        { strokes := [strokeP] }).drawingState.strokes = [strokeP]
      ∧ strokeS1 ∉ ((Room.create.appendStroke strokeS1).hydrateResolve
          { strokes := [strokeP] }).drawingState.strokes :=
  hydration_replaces_log (Room.create.appendStroke strokeS1) strokeS1
    { strokes := [strokeP] } (by decide)

/-- C2, counterexample: three participants join sequentially and receive
layer indices 0, 1, 2; the first disconnects; a fourth joiner then receives
layer index 2 — the count of current participants — not 3, and 2 is already
held by the third participant, so indices are reused. -/
theorem layer_reuse_cex :
    (Room.create.connect "a" "Alice" "#111111").1.layer = 0
      ∧ ((Room.create.connect "a" "Alice" "#111111").2.connect
          "b" "Bob" "#222222").1.layer = 1
      ∧ (((Room.create.connect "a" "Alice" "#111111").2.connect
          "b" "Bob" "#222222").2.connect "c" "Cara" "#333333").1.layer = 2
      ∧ (roomScenario.connect "d" "Dana" "#444444").1.layer = 2
      ∧ ¬ (roomScenario.connect "d" "Dana" "#444444").1.layer = 3 := by
  decide

/-- C2, amended: the layer index assigned to a joining participant equals
the number of participants currently in the room, so indices freed by a
departure are reused; in the scenario (three joins, first participant
leaves), the fourth joiner receives layer index 2. -/
theorem layer_index_is_current_count :
    (∀ (room : Room) (sid nm col : String),
        ((room.connect sid nm col).1).layer = room.users.length)
      ∧ (roomScenario.connect "d" "Dana" "#444444").1.layer = 2 :=
  ⟨fun _ _ _ _ => rfl, by decide⟩

/-- C3, counterexample: for the snapshot `[strokeA, strokeB]` (`strokeA`:
layer 0, ts 10; `strokeB`: layer 1, ts 5) the client draws `strokeA` first —
snapshot order — not `strokeB` first as the claimed timestamp ordering
demands (the spec-described order is computed by `specOrderedCalls`). -/
theorem snapshot_order_cex :
    drawCalls (onStateReceived (some [strokeA, strokeB]))
        = [strokeCall strokeA, strokeCall strokeB]
      ∧ specOrderedCalls [strokeA, strokeB]
        = [strokeCall strokeB, strokeCall strokeA]
      ∧ ¬ drawCalls (onStateReceived (some [strokeA, strokeB]))
        = [strokeCall strokeB, strokeCall strokeA] := by
  decide

/-- C3, amended: on receipt of a full authoritative snapshot the client
clears the consolidated view and redraws the strokes in exactly the order
they appear in the snapshot; no reordering by timestamp or layer index is
applied. -/
theorem snapshot_redraw_in_log_order (strokes : List Stroke) :
    drawCalls (onStateReceived (some strokes)) = strokes.map strokeCall := by
  have key : ∀ (l : List Stroke) (acc : List CanvasOp),
      drawCalls (l.foldl (fun a s => a ++ [CanvasOp.draw (strokeCall s)]) acc)
        = drawCalls acc ++ l.map strokeCall := by
    intro l
    induction l with
    | nil => intro acc; simp
    | cons hd tl ih =>
        intro acc
        rw [List.foldl_cons, ih]
        simp [drawCalls, List.filterMap_append]
  have h2 := key strokes [CanvasOp.wipe, CanvasOp.fillBackground]
  simpa [onStateReceived, redraw, drawCalls] using h2

/-- C4: `undoLastStroke` immediately after `addStroke s` returns exactly
`s`, restores the log to its value before the append (so `s` is no longer
in it, `s` being fresh), and leaves `s` as the sole content of the redo
stack, onto which it was pushed. -/
theorem undo_after_append (st : DrawingState) (s : Stroke)
    (h : s ∉ st.strokes) :
    (st.addStroke s).2.undoLastStroke
        = (some s, { strokes := st.strokes, undoStack := [s] })
      ∧ s ∉ ((st.addStroke s).2.undoLastStroke).2.strokes := by
  have key : (st.addStroke s).2.undoLastStroke
      = (some s, { strokes := st.strokes, undoStack := [s] }) := by
    simp [DrawingState.addStroke, DrawingState.undoLastStroke]
  refine ⟨key, ?_⟩
  rw [key]
  exact h

/-- C4, witness for `undo_after_append` on a one-stroke log and a fresh
stroke. -/
theorem undo_after_append_witness :
    ((DrawingState.make [strokeA]).addStroke strokeB).2.undoLastStroke
        = (some strokeB, { strokes := [strokeA], undoStack := [strokeB] })
      ∧ strokeB ∉ (((DrawingState.make [strokeA]).addStroke
          strokeB).2.undoLastStroke).2.strokes :=
  undo_after_append (DrawingState.make [strokeA]) strokeB (by decide)

/-- C5: appending a stroke to a state with a non-empty redo stack empties
the redo stack, and a subsequent `redoLastStroke` returns nothing and
changes nothing. -/
theorem append_clears_redo (st : DrawingState) (s : Stroke)
    (_h : st.undoStack ≠ []) :
    (st.addStroke s).2.undoStack = []
      ∧ (st.addStroke s).2.redoLastStroke = (none, (st.addStroke s).2) :=
  ⟨rfl, rfl⟩

/-- C5, witness for `append_clears_redo` on a state with one pending
redo. -/
theorem append_clears_redo_witness :
    (stateWithRedo.addStroke strokeA).2.undoStack = []
      ∧ (stateWithRedo.addStroke strokeA).2.redoLastStroke
        = (none, (stateWithRedo.addStroke strokeA).2) :=
  append_clears_redo stateWithRedo strokeA (by decide)

/-- C6: `undoLastStroke` on an empty log and `redoLastStroke` on an empty
redo stack each return nothing and leave the state unchanged, and the
corresponding socket handlers emit the failure notice to the sender only —
no room-wide emission. -/
theorem empty_undo_redo_sender_only (st st2 : DrawingState)
    (h1 : st.strokes = []) (h2 : st2.undoStack = []) :
    st.undoLastStroke = (none, st)
      ∧ handleUndo st
        = (st, [{ scope := Scope.senderOnly, event := "undoFailed" }])
      ∧ st2.redoLastStroke = (none, st2)
      ∧ handleRedo st2
        = (st2, [{ scope := Scope.senderOnly, event := "redoFailed" }]) := by
  obtain ⟨l1, u1⟩ := st
  obtain ⟨l2, u2⟩ := st2
  simp only at h1 h2
  subst h1
  subst h2
  exact ⟨rfl, rfl, rfl, rfl⟩

/-- C6, witness for `empty_undo_redo_sender_only` on concrete empty-log and
empty-redo states. -/
theorem empty_undo_redo_sender_only_witness :
    DrawingState.undoLastStroke { strokes := [], undoStack := [strokeB] }
        = (none, { strokes := [], undoStack := [strokeB] })
      ∧ handleUndo { strokes := [], undoStack := [strokeB] }
        = ({ strokes := [], undoStack := [strokeB] },
           [{ scope := Scope.senderOnly, event := "undoFailed" }])
      ∧ DrawingState.redoLastStroke { strokes := [strokeA], undoStack := [] }
        = (none, { strokes := [strokeA], undoStack := [] })
      ∧ handleRedo { strokes := [strokeA], undoStack := [] }
        = ({ strokes := [strokeA], undoStack := [] },
           [{ scope := Scope.senderOnly, event := "redoFailed" }]) :=
  empty_undo_redo_sender_only
    { strokes := [], undoStack := [strokeB] }
    { strokes := [strokeA], undoStack := [] } rfl rfl

/-- C7: with a set (nonzero) gate, an incoming segment with a strictly
smaller timestamp is discarded and the gate is unchanged, while a segment
with a greater-or-equal timestamp is accepted and the gate becomes its
timestamp; over the arrival sequence [100, 80, 120] from a fresh surface,
100 and 120 are accepted and 80 is discarded. -/
theorem ordering_gate (g ts : Nat) (h : g ≠ 0) :
    (ts < g → gateStep g ts = (false, g))
      ∧ (g ≤ ts → gateStep g ts = (true, ts))
      ∧ gateRun 0 [100, 80, 120]
        = ([(100, true), (80, false), (120, true)], 120) := by
  refine ⟨?_, ?_, by decide⟩
  · intro hlt
    simp [gateStep, h, hlt]
  · intro hle
    simp [gateStep, h, Nat.not_lt.mpr hle]

/-- C7, witness for `ordering_gate` at gate 100 and timestamp 80. -/
theorem ordering_gate_witness :
    (80 < 100 → gateStep 100 80 = (false, 100))
      ∧ (100 ≤ 80 → gateStep 100 80 = (true, 80))
      ∧ gateRun 0 [100, 80, 120]
        = ([(100, true), (80, false), (120, true)], 120) :=
  ordering_gate 100 80 (by decide)

/-- C8: the relayed live segment carries the sender's socket id as its
author (whatever author id the client supplied), the server's receipt
timestamp in `serverTimestamp`, a tool defaulted to `"brush"` when the
client sent none, and is emitted to everyone in the room except the
sender. -/
theorem segment_relay_stamps (senderId : String) (userLayer : Option Nat)
    (now : Nat) (data : SegData) :
    ((handleDrawingSegment senderId userLayer now data).1.userId
        = some senderId)
      ∧ ((handleDrawingSegment senderId userLayer now data).1.serverTimestamp
        = some now)
      ∧ (data.tool = none →
          (handleDrawingSegment senderId userLayer now data).1.tool
            = some "brush")
      ∧ ((handleDrawingSegment senderId userLayer now data).2
        = Scope.roomExceptSender) := by
  unfold handleDrawingSegment
  cases userLayer <;> cases data <;>
    simp [natFalsy, strFalsy] <;> split <;> simp_all [strFalsy] <;>
    split <;> simp_all

/-- C8, witness for `segment_relay_stamps` on a segment with a spoofed
author id and no tool. -/
theorem segment_relay_stamps_witness :
    ((handleDrawingSegment "realSender" (some 4) 1234 segSpoofed).1.userId
        = some "realSender")
      ∧ ((handleDrawingSegment "realSender" (some 4) 1234
          segSpoofed).1.serverTimestamp = some 1234)
      ∧ (segSpoofed.tool = none →
          (handleDrawingSegment "realSender" (some 4) 1234 segSpoofed).1.tool
            = some "brush")
      ∧ ((handleDrawingSegment "realSender" (some 4) 1234 segSpoofed).2
        = Scope.roomExceptSender) :=
  segment_relay_stamps "realSender" (some 4) 1234 segSpoofed

/-- C9: saving a room's drawing state and loading it back yields a stroke
sequence equal to the saved one in order and content, for every prior store
content and room id. -/
theorem save_load_round_trip (store : Store) (roomId : String)
    (d : DrawingState) :
    (loadRoomState (saveRoomState store roomId d) roomId).strokes
      = d.strokes := by
  simp [loadRoomState, saveRoomState, DrawingState.toJSON,
    DrawingState.fromJSON, DrawingState.make, List.find?]

/-- C10: serialization keeps only the stroke log — `fromJSON (toJSON d)`
has the same strokes as `d` but an empty redo stack, so after a save/load
round trip `redoLastStroke` returns nothing even when `d` had undone
strokes pending redo. -/
theorem serialization_drops_redo (d : DrawingState) :
    (DrawingState.fromJSON (some d.toJSON)).strokes = d.strokes
      ∧ (DrawingState.fromJSON (some d.toJSON)).undoStack = []
      ∧ (DrawingState.fromJSON (some d.toJSON)).redoLastStroke
        = (none, DrawingState.fromJSON (some d.toJSON)) :=
  ⟨rfl, rfl, rfl⟩

end Collab
